import Mathlib

/-!
Verification development for the AITestingAgent repository: a browser-automation
harness that types questions into a chat web UI, scrapes the rendered answer and
appends question/answer pairs to a fixed-size CSV scoreboard.

The Python sources (`src/locators/chatbot_locators.py`, `src/commonMethods.py`,
`src/browser_agent.py`) are shallowly embedded below.  The browser itself is
abstracted as a query function `String → List Elem` (the result list of
`page.query_selector_all`) plus the raw `document.body.innerText` blob; points
where the external capability provider may raise are modelled as `Option String`
flags carried by the environment.  Python lists that the code mutates in place
(the class-level universal selector lists) become explicit state threaded
through the functions.  Exceptions that a function swallows internally are not
modelled; exceptions that escape a function are modelled as an explicit
`ExchangeResult.raised` value.
-/

/-- Character-list version of Python's `str.startswith` used by the substring test. -/
def leadsWith : List Char → List Char → Bool
  | [], _ => true
  | _ :: _, [] => false
  | a :: as, b :: bs => a == b && leadsWith as bs

/-- Substring containment on character lists: Python's `sub in s`. -/
def listSub (p : List Char) : List Char → Bool
  | [] => leadsWith p []
  | b :: bs => leadsWith p (b :: bs) || listSub p bs

/-- Python's `sub in s` on strings. -/
def subOf (p s : String) : Bool := listSub p.data s.data

/-- Python's `str.lower` (modelled on the ASCII range, which covers every string
the program compares). -/
def strLower (s : String) : String := String.mk (s.data.map Char.toLower)

/-- Python's `str.strip` on a character list: drop whitespace from both ends. -/
def trimChars (l : List Char) : List Char :=
  ((l.dropWhile Char.isWhitespace).reverse.dropWhile Char.isWhitespace).reverse

/-- Python's `str.strip`. -/
def strTrim (s : String) : String := String.mk (trimChars s.data)

/-- Worker for `strSplitOn`: split at each occurrence of the (nonempty)
separator, carrying the current segment reversed; the fuel is an upper bound on
the number of steps (each step consumes at least one character). -/
def splitOnAux (sep : List Char) : Nat → List Char → List Char → List (List Char)
  | 0, rest, acc => [acc.reverse ++ rest]
  | _ + 1, [], acc => [acc.reverse]
  | fuel + 1, c :: cs, acc =>
    if leadsWith sep (c :: cs) then
      acc.reverse :: splitOnAux sep fuel (List.drop (sep.length - 1) cs) []
    else splitOnAux sep fuel cs (c :: acc)

/-- Python's `s.split(sep)` for a nonempty separator. -/
def strSplitOn (s sep : String) : List String :=
  (splitOnAux sep.data (s.data.length + 1) s.data []).map String.mk

/-- Worker for `strSplitWs`: cut at every whitespace character (consecutive
whitespace produces empty pieces, which the caller drops, matching Python's
`s.split()`). -/
def splitWsAux : List Char → List Char → List (List Char)
  | [], acc => [acc.reverse]
  | c :: cs, acc =>
    if c.isWhitespace then acc.reverse :: splitWsAux cs []
    else splitWsAux cs (c :: acc)

/-- Whitespace split with empty pieces still present. -/
def strSplitWs (s : String) : List String :=
  (splitWsAux s.data []).map String.mk

/-- Python's `s.startswith(p)`. -/
def strStartsWith (s p : String) : Bool := leadsWith p.data s.data

/-- One site profile of `ChatbotLocators.URL_PATTERNS` (chatbot_locators.py). -/
structure SiteProfile where
  key : String
  url_patterns : List String
  input_primary : String
  send_primary : String
  response_primary : String
deriving DecidableEq, Repr

/-- The `'easemate'` entry of `URL_PATTERNS`. -/
def easemateProfile : SiteProfile :=
  { key := "easemate"
    url_patterns := ["easemate.ai", "ease-mate.ai"]
    input_primary := "textarea[placeholder*=\"Ask\"]"
    send_primary := "button[aria-label*=\"Send\"]"
    response_primary := ".chat-message" }

/-- The `'gemini'` entry of `URL_PATTERNS`. -/
def geminiProfile : SiteProfile :=
  { key := "gemini"
    url_patterns := ["gemini.google.com", "bard.google.com"]
    input_primary := "div[contenteditable=\"true\"]"
    send_primary := "button[aria-label*=\"Send\"]"
    response_primary := ".response-content" }

/-- The `'chatgpt'` entry of `URL_PATTERNS`. -/
def chatgptProfile : SiteProfile :=
  { key := "chatgpt"
    url_patterns := ["chat.openai.com", "chatgpt.com"]
    input_primary := "#prompt-textarea"
    send_primary := "button[data-testid=\"send-button\"]"
    response_primary := ".markdown" }

/-- The `'claude'` entry of `URL_PATTERNS`. -/
def claudeProfile : SiteProfile :=
  { key := "claude"
    url_patterns := ["claude.ai"]
    input_primary := "div[contenteditable=\"true\"]"
    send_primary := "button[aria-label*=\"Send\"]"
    response_primary := ".font-claude-message" }

/-- The `'default'` entry of `URL_PATTERNS` (catch-all, empty pattern list). -/
def defaultProfile : SiteProfile :=
  { key := "default"
    url_patterns := []
    input_primary := "textarea[placeholder*=\"Ask\"]"
    send_primary := "button[aria-label*=\"Send\"]"
    response_primary := ".chat-message" }

/-- `ChatbotLocators.URL_PATTERNS` in its Python (insertion-order) iteration
order: `default` last. -/
def URL_PATTERNS : List SiteProfile :=
  [easemateProfile, geminiProfile, chatgptProfile, claudeProfile, defaultProfile]

/-- `ChatbotLocators.UNIVERSAL_INPUT_SELECTORS`. -/
def UNIVERSAL_INPUT_SELECTORS : List String :=
  [ "textarea[placeholder*=\"Ask\"]"
  , "textarea[placeholder*=\"message\"]"
  , "textarea[placeholder*=\"Message\"]"
  , "textarea[placeholder*=\"Type\"]"
  , "textarea[placeholder*=\"type\"]"
  , "input[type=\"text\"]"
  , "div[contenteditable=\"true\"]"
  , "[contenteditable=\"true\"]"
  , "[role=\"textbox\"]"
  , "textarea"
  , ".input-field"
  , ".chat-input"
  , "#message-input"
  , "input[placeholder*=\"Type\"]"
  , "div[role=\"textbox\"]" ]

/-- `ChatbotLocators.UNIVERSAL_SEND_SELECTORS`. -/
def UNIVERSAL_SEND_SELECTORS : List String :=
  [ "button[type=\"submit\"]"
  , "button:has-text(\"Send\")"
  , "button:has-text(\"send\")"
  , "button:has-text(\"Submit\")"
  , "button:has-text(\"submit\")"
  , "button[aria-label*=\"Send\"]"
  , "button[aria-label*=\"send\"]"
  , ".send-button"
  , ".send-btn"
  , "button svg"
  , "button:has(svg)"
  , "button[class*=\"send\"]"
  , "button[class*=\"submit\"]"
  , "button[class*=\"arrow\"]"
  , "button[class*=\"right\"]" ]

/-- `ChatbotLocators.UNIVERSAL_RESPONSE_SELECTORS`. -/
def UNIVERSAL_RESPONSE_SELECTORS : List String :=
  [ ".chat-message"
  , ".message-content"
  , ".response-content"
  , ".ai-response"
  , ".chat-response"
  , ".message"
  , ".response"
  , "[data-testid*=\"response\"]"
  , "[data-testid*=\"message\"]"
  , ".prose"
  , ".markdown"
  , ".text-message"
  , ".conversation-turn"
  , ".bot-message"
  , ".assistant-message"
  , ".ai-message"
  , "div[class*=\"message\"]"
  , "div[class*=\"response\"]"
  , "div[class*=\"chat\"]"
  , "p"
  , "div[class*=\"text\"]" ]

/-- `ChatbotLocators.GENERIC_INPUT_SELECTORS`. -/
def GENERIC_INPUT_SELECTORS : List String :=
  ["input", "textarea", "[contenteditable=\"true\"]", "[role=\"textbox\"]"]

/-- Iteration of `LocatorUtils.detect_chatbot_type`'s profile loop over an
already-lowercased URL. -/
def detect_go (ul : String) : List SiteProfile → String
  | [] => "default"
  | p :: rest =>
    if p.url_patterns.any (fun pat => subOf pat ul) then p.key else detect_go ul rest

/-- `LocatorUtils.detect_chatbot_type`: lowercase the URL, return the key of the
first profile one of whose patterns occurs in it, else `"default"`. -/
def detect_chatbot_type (url : String) : String :=
  detect_go (strLower url) URL_PATTERNS

/-- `ChatbotLocators.URL_PATTERNS.get(key, default)` lookup used by the
`get_primary_*` helpers. -/
def profileFor (key : String) : SiteProfile :=
  match URL_PATTERNS.find? (fun p => p.key == key) with
  | some p => p
  | none => defaultProfile

/-- `LocatorUtils.get_primary_input_locator` (a `None` or empty URL is falsy in
Python and selects the default profile). -/
def get_primary_input_locator (url : Option String) : String :=
  match url with
  | some u => if u == "" then defaultProfile.input_primary
              else (profileFor (detect_chatbot_type u)).input_primary
  | none => defaultProfile.input_primary

/-- `LocatorUtils.get_primary_send_button_locator`. -/
def get_primary_send_button_locator (url : Option String) : String :=
  match url with
  | some u => if u == "" then defaultProfile.send_primary
              else (profileFor (detect_chatbot_type u)).send_primary
  | none => defaultProfile.send_primary

/-- `LocatorUtils.get_primary_response_locator`. -/
def get_primary_response_locator (url : Option String) : String :=
  match url with
  | some u => if u == "" then defaultProfile.response_primary
              else (profileFor (detect_chatbot_type u)).response_primary
  | none => defaultProfile.response_primary

/-- The mutable class-level selector lists of `ChatbotLocators`.
`LocatorUtils.get_all_locators` returns the list objects themselves, so
`get_fallback_locators` mutates them in place; the embedding threads them as
explicit state. -/
structure LocatorState where
  input_fields : List String
  send_buttons : List String
  responses : List String
deriving DecidableEq, Repr

/-- The selector lists as declared at import time. -/
def initLocatorState : LocatorState :=
  { input_fields := UNIVERSAL_INPUT_SELECTORS
    send_buttons := UNIVERSAL_SEND_SELECTORS
    responses := UNIVERSAL_RESPONSE_SELECTORS }

/-- The class-level list that `get_all_locators` hands out for a locator type. -/
def classList (locator_type : String) (st : LocatorState) : List String :=
  if locator_type == "input" then st.input_fields
  else if locator_type == "send" then st.send_buttons
  else if locator_type == "response" then st.responses
  else []

/-- `LocatorUtils.get_fallback_locators`.  Python's
`if primary_locator in fallbacks: fallbacks.remove(primary_locator)` removes the
first occurrence in place (`List.erase` is the identity when absent), and the
returned list is the shared class-level list object, so the new state stores the
erased list.  The `url` parameter is unused in the source as well. -/
def get_fallback_locators (primary_locator locator_type : String) (url : Option String)
    (st : LocatorState) : List String × LocatorState :=
  if locator_type == "input" then
    let fb := st.input_fields.erase primary_locator
    (fb, { st with input_fields := fb })
  else if locator_type == "send" then
    let fb := st.send_buttons.erase primary_locator
    (fb, { st with send_buttons := fb })
  else if locator_type == "response" then
    let fb := st.responses.erase primary_locator
    (fb, { st with responses := fb })
  else ([], st)

/-- A sequence of later `get_fallback_locators` calls (primary, type, url),
acting on the shared selector lists. -/
def applyCalls (calls : List (String × String × Option String)) (st : LocatorState) :
    LocatorState :=
  calls.foldl (fun s c => (get_fallback_locators c.1 c.2.1 c.2.2 s).2) st

/-- A DOM element handle as the capability provider exposes it: the derived
facts `is_visible`, `is_enabled`, `text_content` (with Python's `None`
represented by `""`, both of which make the same branches fire) and the
bounding-box `y` coordinate (`none` when `bounding_box()` returns `None`). -/
structure Elem where
  visible : Bool
  enabled : Bool
  text : String
  y : Option Int
deriving DecidableEq, Repr

/-- The loop `for element in elements: if element.is_visible(): return element`
used by every phase of `BrowserOperations.find_element_with_healing`. -/
def firstVisible (elems : List Elem) : Option Elem :=
  elems.find? (fun e => e.visible)

/-- The fallback loop of `find_element_with_healing`: query each fallback
selector in turn and return the first visible match. -/
def tryFallbacks (page : String → List Elem) : List String → Option Elem
  | [] => none
  | sel :: rest =>
    match firstVisible (page sel) with
    | some e => some e
    | none => tryFallbacks page rest

/-- The combined selector `', '.join(generic_fallbacks)` queried by the generic
last-resort phase. -/
def genericCombined : String := String.intercalate ", " GENERIC_INPUT_SELECTORS

/-- The primary selector computed at the top of `find_element_with_healing`:
`if not primary_locator:` replaces a missing (or empty, hence falsy) explicit
primary with the URL-derived one for the locator type. -/
def primaryFor (locator_type : String) (primary_locator : Option String)
    (url : Option String) : String :=
  let fromUrl :=
    if locator_type == "input" then get_primary_input_locator url
    else if locator_type == "send" then get_primary_send_button_locator url
    else get_primary_response_locator url
  match primary_locator with
  | some p => if p == "" then fromUrl else p
  | none => fromUrl

/-- `BrowserOperations.find_element_with_healing`: try the primary selector,
then the universal fallback list for the type (with the primary erased from the
shared list in place), then the combined generic selector; each phase returns
the first visible match.  `is_enabled` is never consulted. -/
def find_element_with_healing (page : String → List Elem) (locator_type : String)
    (primary_locator : Option String) (url : Option String) (st : LocatorState) :
    Option Elem × LocatorState :=
  let primary := primaryFor locator_type primary_locator url
  match firstVisible (page primary) with
  | some e => (some e, st)
  | none =>
    let fb := get_fallback_locators primary locator_type url st
    match tryFallbacks page fb.1 with
    | some e => (some e, fb.2)
    | none => (firstVisible (page genericCombined), fb.2)

/-- The `placeholder_texts` list of `enter_text_and_get_response`. -/
def placeholder_texts : List String :=
  [ "Enter to send"
  , "Shift + Enter to newline"
  , "Enter to send; Shift + Enter to newline"
  , "Type a message"
  , "Type your message"
  , "Ask me anything"
  , "Send a message"
  , "Enter your prompt"
  , "Start typing..." ]

/-- The first `ui_elements` list (line 280 of commonMethods.py), used while
filtering candidates. -/
def ui_filter_list : List String :=
  [ "Expand menu", "Use microphone", "New chat", "Edit prompt"
  , "Stop response", "Continue", "Regenerate", "Copy", "Share"
  , "Send", "Submit", "Clear", "Delete", "Edit" ]

/-- The second, shorter `ui_elements` list (line 376), used while cleaning the
selected response. -/
def ui_clean_list : List String :=
  [ "Expand menu", "Use microphone", "New chat", "Edit prompt"
  , "Stop response", "Continue", "Regenerate", "Copy", "Share" ]

/-- The per-candidate filter of the response-element loop.  `t` is the loop
variable `text` (the element's own text content): in the source it shadows the
`text` parameter holding the submitted question, so the `is_user_message`
comparison `text_clean.lower() == text.lower()` tests the candidate against its
own raw text, not against the question. -/
def keepCandidate (t : String) (visible : Bool) : Bool :=
  (!(t == "")) && visible && decide (20 < (strTrim t).length)
  && (!(placeholder_texts.any (fun p => subOf p (strTrim t))))
  && (!(ui_filter_list.any (fun u => subOf u (strTrim t))))
  && (!(strLower (strTrim t) == strLower t))
  && (!(decide ((strTrim t).length < 30)))

/-- The accumulation of `valid_responses`: each surviving element contributes
its trimmed text and its bounding-box `y` (`0` when the box is absent). -/
def collectValid (elems : List Elem) : List (String × Int) :=
  elems.filterMap fun e =>
    if keepCandidate e.text e.visible then some (strTrim e.text, (e.y).getD 0) else none

/-- `valid_responses.sort(key=..., reverse=True)` is a stable descending sort by
`y`, and `[0]` then selects the first candidate with the maximal `y`. -/
def pickTop (vs : List (String × Int)) : Option (String × Int) :=
  vs.foldl
    (fun acc v =>
      match acc with
      | none => some v
      | some a => if v.2 > a.2 then some v else some a)
    none

/-- The page-text branch sorts surviving lines by length descending (stable) and
takes the first, i.e. the first longest line. -/
def pickLongest (ls : List String) : Option String :=
  ls.foldl
    (fun acc l =>
      match acc with
      | none => some l
      | some a => if l.length > a.length then some l else some a)
    none

/-- The fallback-gathering loop: first fallback selector with a non-empty query
result contributes its elements, then the loop breaks. -/
def firstNonEmptyQuery (page : String → List Elem) : List String → List Elem
  | [] => []
  | sel :: rest =>
    let es := page sel
    if es.isEmpty then firstNonEmptyQuery page rest else es

/-- The `document.body.innerText` fallback branch of the capture phase.
`lastText` is the leaked loop variable `text`: the raw text of the last iterated
response element, or the question when no element was iterated.  When it is
empty, Python's `page_text.split('')` raises `ValueError`, which the enclosing
`except` swallows, leaving no result; the same `except` also swallows the
`TypeError` of a `None` text content. -/
def pageTextFallback (pageText lastText : String) : String :=
  if lastText == "" then ""
  else
    let parts := strSplitOn pageText lastText
    if parts.length > 1 then
      let after := strTrim (parts.getLastD "")
      let valids := (strSplitOn after "\n").filterMap fun line =>
        let lc := strTrim line
        if (!(lc == "")) && decide (20 < lc.length)
            && (!(placeholder_texts.any (fun p => subOf p lc)))
            && (!(ui_filter_list.any (fun u => subOf u lc)))
            && (!(strLower lc == strLower lastText))
            && (!(decide (lc.length < 30))) then
          some lc
        else none
      match pickLongest valids with
      | some l => l
      | none => ""
    else ""

/-- Python's `s.replace(old, '')`: remove every occurrence of `old`. -/
def removeAll (s old : String) : String := String.intercalate "" (strSplitOn s old)

/-- The cleanup applied to the selected response text: strip, remove the chrome
labels of `ui_clean_list`, then `' '.join(s.split())` collapses whitespace runs. -/
def cleanResponse (s : String) : String :=
  let s1 := ui_clean_list.foldl removeAll (strTrim s)
  String.intercalate " " ((strSplitWs s1).filter (fun w => !(w == "")))

/-- The environment a single question-answer exchange runs against: the DOM
query function, the page's `innerText`, the run's URL, and the points where the
capability provider raises (`none` = the calls succeed). -/
structure ExchangeEnv where
  page : String → List Elem
  pageText : String
  url : Option String
  typeRaises : Option String
  sendRaises : Option String
  captureRaises : Option String

/-- The capture phase (third `try` block of `enter_text_and_get_response`):
gather response elements (primary matches, extended by the first productive
fallback when fewer than two primaries matched — mutating the shared response
selector list), filter and rank them, fall back to the page text, and clean the
selection; `"No response captured"` when nothing survived. -/
def capture_response (env : ExchangeEnv) (text : String) (st : LocatorState) :
    String × LocatorState :=
  let primary := get_primary_response_locator env.url
  let primElems := env.page primary
  let gathered :=
    if primElems.length < 2 then
      let fb := get_fallback_locators primary "response" env.url st
      (primElems ++ firstNonEmptyQuery env.page fb.1, fb.2)
    else (primElems, st)
  let elems := gathered.1
  let lastText := ((elems.getLast?).map Elem.text).getD text
  let responseText :=
    match pickTop (collectValid elems) with
    | some v => v.1
    | none => pageTextFallback env.pageText lastText
  if responseText == "" then ("No response captured", gathered.2)
  else (cleanResponse responseText, gathered.2)

/-- What one call of `enter_text_and_get_response` does from the caller's point
of view: return a string, or let an exception propagate. -/
inductive ExchangeResult where
  | returned (s : String)
  | raised (msg : String)
deriving DecidableEq, Repr

/-- `BrowserOperations.enter_text_and_get_response`.  The first two `try` blocks
re-raise every error (`except ...: print(...); raise`): a missing input field or
a capability failure while typing or submitting propagates to the caller.  Only
the third block catches, returning `"Error: " ++ msg`.  When nothing raises, the
capture phase produces the response string. -/
def enter_text_and_get_response (env : ExchangeEnv) (text : String) (st : LocatorState) :
    ExchangeResult × LocatorState :=
  let inputRes := find_element_with_healing env.page "input" none env.url st
  match inputRes.1 with
  | none =>
    (ExchangeResult.raised "Could not find any visible input field with self-healing",
     inputRes.2)
  | some _ =>
    match env.typeRaises with
    | some m => (ExchangeResult.raised m, inputRes.2)
    | none =>
      let sendRes := find_element_with_healing env.page "send" none env.url inputRes.2
      match env.sendRaises with
      | some m => (ExchangeResult.raised m, sendRes.2)
      | none =>
        match env.captureRaises with
        | some m => (ExchangeResult.returned ("Error: " ++ m), sendRes.2)
        | none =>
          let cap := capture_response env text sendRes.2
          (ExchangeResult.returned cap.1, cap.2)

/-- The header row written by `save_to_csv` on reset. -/
def headerRow : List String := ["Question", "Answer", "Score"]

/-- One blank data row. -/
def blankRow : List String := ["", "", ""]

/-- The store contents right after `reset_file=True`: header plus 20 blank data
rows (reading the freshly written CSV back yields exactly these rows). -/
def resetRows : List (List String) := headerRow :: List.replicate 20 blankRow

/-- The emptiness test of the row scan: `len(rows[i]) >= 3 and not
rows[i][0].strip()`. -/
def rowEmptyQ (r : List String) : Bool :=
  decide (3 ≤ r.length) && ((strTrim (r.headD "")) == "")

/-- The scan `for i in range(1, len(rows))` looking for the first empty data
row, carrying the running index. -/
def findEmptyRowAux : List (List String) → Nat → Option Nat
  | [], _ => none
  | r :: rest, i => if rowEmptyQ r then some i else findEmptyRowAux rest (i + 1)

/-- First empty data row of the store (the header at index 0 is skipped). -/
def findEmptyRow : List (List String) → Option Nat
  | [] => none
  | _ :: rest => findEmptyRowAux rest 1

/-- The in-place cell updates `rows[i][0] = question; rows[i][1] = response;
rows[i][2] = ''` at row index `i`. -/
def setRowAt : List (List String) → Nat → String → String → List (List String)
  | [], _, _, _ => []
  | r :: rest, 0, q, a => (((r.set 0 q).set 1 a).set 2 "") :: rest
  | r :: rest, n + 1, q, a => r :: setRowAt rest n q a

/-- `BrowserOperations.save_to_csv` on the abstract row store: optionally reset
to header + 20 blank rows, then fill the first data row with an empty Question
cell and rewrite; `False` (store unchanged) when no empty row exists. -/
def save_to_csv (question response : String) (reset_file : Bool)
    (rows : List (List String)) : Bool × List (List String) :=
  let rows1 := if reset_file then resetRows else rows
  match findEmptyRow rows1 with
  | none => (false, rows1)
  | some i => (true, setRowAt rows1 i question response)

/-- The data row a persisted question/answer pair occupies (Score always blank). -/
def rowOf (p : String × String) : List String := [p.1, p.2, ""]

/-- The store after a reset followed by the successful persists of `qas`, in
order: header, one filled row per pair, blank rows for the rest of the 20. -/
def storeAfter (qas : List (String × String)) : List (List String) :=
  headerRow :: (qas.map rowOf ++ List.replicate (20 - qas.length) blankRow)

/-- Observable steps of `main`'s question loop (browser_agent.py):
a question's exchange ran, the store was reset, a row was written, the save
failed (store full), or the save was skipped for an invalid response. -/
inductive Event where
  | processed (q : String)
  | resetStore
  | wroteRow (q a : String)
  | saveFailed (q : String)
  | skipped (q : String)
deriving DecidableEq, Repr

/-- Recognizer for the reset event. -/
def isReset : Event → Bool
  | Event.resetStore => true
  | _ => false

/-- Recognizer for a row-write event. -/
def isWrote : Event → Bool
  | Event.wroteRow _ _ => true
  | _ => false

/-- Recognizer for an exchange event. -/
def isProc : Event → Bool
  | Event.processed _ => true
  | _ => false

/-- `main`'s save guard: `if response and response != "No response captured"
and not response.startswith("Error:")`. -/
def validResponse (r : String) : Bool :=
  (!(r == "")) && (!(r == "No response captured")) && (!(strStartsWith r "Error:"))

/-- `save_to_csv` with its observable events: the reset (when requested)
happens inside the call, before the row write. -/
def save_events (q a : String) (reset : Bool) (rows : List (List String)) :
    Bool × List (List String) × List Event :=
  let r := save_to_csv q a reset rows
  (r.1, r.2,
   (if reset then [Event.resetStore] else [])
     ++ (if r.1 then [Event.wroteRow q a] else [Event.saveFailed q]))

/-- `main`'s question loop.  `first` tracks `i == 1` (the only iteration that
passes `reset_file=True`).  A response failing the guard is skipped; an
exception propagating out of `enter_text_and_get_response` aborts the loop (the
surrounding `try` of `main` catches it after the loop is abandoned), which the
third component reports. -/
def runMain : List (String × ExchangeEnv) → Bool → LocatorState → List (List String) →
    List Event × List (List String) × Option String
  | [], _, _, rows => ([], rows, none)
  | (q, env) :: rest, first, lst, rows =>
    let r := enter_text_and_get_response env q lst
    match r.1 with
    | ExchangeResult.raised m => ([Event.processed q], rows, some m)
    | ExchangeResult.returned resp =>
      if validResponse resp then
        let sv := save_events q resp first rows
        let tail := runMain rest false r.2 sv.2.1
        (Event.processed q :: sv.2.2 ++ tail.1, tail.2.1, tail.2.2)
      else
        let tail := runMain rest false r.2 rows
        (Event.processed q :: Event.skipped q :: tail.1, tail.2.1, tail.2.2)

/-- Whether the first question of the batch produces a response that passes
`main`'s save guard (only then does the reset-carrying save run). -/
def firstValid : List (String × ExchangeEnv) → LocatorState → Bool
  | [], _ => false
  | (q, env) :: _, lst =>
    match (enter_text_and_get_response env q lst).1 with
    | ExchangeResult.returned r => validResponse r
    | ExchangeResult.raised _ => false

/-- The code's profile-matching test lifted to a raw URL: some pattern of the
profile occurs in the lowercased URL. -/
def matchesProfile (p : SiteProfile) (u : String) : Bool :=
  p.url_patterns.any (fun pat => subOf pat (strLower u))

/-- A visible, enabled element with no text, standing in for the input box and
the send button of a synthetic page. -/
def visBox : Elem := { visible := true, enabled := true, text := "", y := none }

/-- A visible but disabled element, for probing whether the resolver checks
`is_enabled`. -/
def disabledBox : Elem := { visible := false, enabled := false, text := "", y := none }

/-- A visible but disabled input-like element (visible yet not enabled). -/
def visDisabled : Elem := { visible := true, enabled := false, text := "", y := none }

/-- A synthetic page whose only match, for the default input primary selector,
is a visible-but-disabled element. -/
def pgDisabled : String → List Elem :=
  fun s => if s == "textarea[placeholder*=\"Ask\"]" then [visDisabled] else []

/-- A synthetic page with a visible element behind the default input primary. -/
def pgVisible : String → List Elem :=
  fun s => if s == "textarea[placeholder*=\"Ask\"]" then [visBox] else []

/-- A question long enough (at least 30 characters) to pass every length
threshold of the classifier. -/
def qEcho : String := "what is the capital of france and how large is that city"

/-- A synthetic response element that echoes the submitted question padded with
whitespace: its trimmed text is exactly the question. -/
def echoElem : Elem :=
  { visible := true, enabled := true, text := " " ++ qEcho ++ " ", y := some 5 }

/-- Environment in which the only response candidate is the padded echo of the
question. -/
def envEcho : ExchangeEnv :=
  { page := fun s => if s == ".chat-message" then [echoElem] else []
    pageText := ""
    url := none
    typeRaises := none, sendRaises := none, captureRaises := none }

/-- A genuine long answer, padded with whitespace so that the (shadowed)
self-echo comparison does not discard it. -/
def goodAnswerElem : Elem :=
  { visible := true, enabled := true
    text := " the answer to that question is paris, which has been the capital for centuries "
    y := some 10 }

/-- Environment with no matching element for any selector: input resolution
fails. -/
def envNoInput : ExchangeEnv :=
  { page := fun _ => [], pageText := "", url := none
    typeRaises := none, sendRaises := none, captureRaises := none }

/-- Environment where input and send resolve but no response candidate exists
and the page text is empty: classification yields nothing. -/
def envNoCapture : ExchangeEnv :=
  { page := fun s =>
      if s == "textarea[placeholder*=\"Ask\"]" then [visBox]
      else if s == "button[aria-label*=\"Send\"]" then [visBox]
      else []
    pageText := "", url := none
    typeRaises := none, sendRaises := none, captureRaises := none }

/-- Environment of a fully successful exchange: input and send resolve and one
long response candidate survives classification. -/
def envGood : ExchangeEnv :=
  { page := fun s =>
      if s == "textarea[placeholder*=\"Ask\"]" then [visBox]
      else if s == "button[aria-label*=\"Send\"]" then [visBox]
      else if s == ".chat-message" then [goodAnswerElem]
      else []
    pageText := "", url := none
    typeRaises := none, sendRaises := none, captureRaises := none }

/-- An element that is present in a query result but not visible. -/
def hiddenBox : Elem := { visible := false, enabled := true, text := "", y := none }

/-- A synthetic page exercising the universal-fallback phase: the primary input
selector has no match, the first fallback selector matches nothing, and the
second fallback selector's query holds an invisible element before a visible
one. -/
def pgFallback : String → List Elem :=
  fun s => if s == "textarea[placeholder*=\"Message\"]" then [hiddenBox, visBox] else []

/-- A synthetic page exercising the generic last-resort phase: no individual
selector matches; only the combined generic query returns elements, an
invisible one before a visible one. -/
def pgGeneric : String → List Elem :=
  fun s => if s == genericCombined then [hiddenBox, visBox] else []

theorem detect_go_of_none (ul : String) (ps : List SiteProfile)
    (h : ∀ p ∈ ps, p.url_patterns.any (fun pat => subOf pat ul) = false) :
    detect_go ul ps = "default" := by
  induction ps with
  | nil => rfl
  | cons p rest ih =>
    simp only [detect_go, h p (List.mem_cons_self p rest)]
    exact ih fun q hq => h q (List.mem_cons_of_mem p hq)

theorem detect_go_first (ul : String) :
    ∀ (ps : List SiteProfile) (i : Nat) (p : SiteProfile),
      ps[i]? = some p →
      p.url_patterns.any (fun pat => subOf pat ul) = true →
      (∀ q ∈ ps.take i, q.url_patterns.any (fun pat => subOf pat ul) = false) →
      detect_go ul ps = p.key := by
  intro ps
  induction ps with
  | nil => intro i p hp _ _; simp at hp
  | cons a rest ih =>
    intro i p hp hm hpre
    cases i with
    | zero =>
      simp only [List.getElem?_cons_zero, Option.some.injEq] at hp
      subst hp
      simp [detect_go, hm]
    | succ j =>
      have ha : a.url_patterns.any (fun pat => subOf pat ul) = false :=
        hpre a (by simp [List.take_succ_cons])
      simp only [detect_go, ha, Bool.false_eq_true, if_false]
      exact ih j p (by simpa using hp) hm
        (fun q hq => hpre q (by simp [List.take_succ_cons, hq]))

/-- C10: for every URL `u`, `detect_chatbot_type u` returns the key of the
first profile in declaration order whose patterns contain a case-insensitive
substring of `u` — `"default"` (declared last) when no pattern matches; the
function is total by construction, the result depends only on the lowercased
URL (case-insensitivity), the declared pattern strings are themselves
lowercase, and `"default"` is the last declared key. -/
theorem c10_detect_site_kind (u : String) :
    ((∀ p ∈ URL_PATTERNS, matchesProfile p u = false) → detect_chatbot_type u = "default")
    ∧ (∀ (i : Nat) (p : SiteProfile), URL_PATTERNS[i]? = some p →
        matchesProfile p u = true →
        (∀ q ∈ URL_PATTERNS.take i, matchesProfile q u = false) →
        detect_chatbot_type u = p.key)
    ∧ (∀ v : String, strLower u = strLower v →
        detect_chatbot_type u = detect_chatbot_type v)
    ∧ (URL_PATTERNS.map SiteProfile.key).getLast? = some "default"
    ∧ (∀ p ∈ URL_PATTERNS, ∀ pat ∈ p.url_patterns, strLower pat = pat) := by
  refine ⟨?_, ?_, ?_, by decide, by decide⟩
  · intro h
    exact detect_go_of_none (strLower u) URL_PATTERNS fun p hp => h p hp
  · intro i p hp hm hpre
    exact detect_go_first (strLower u) URL_PATTERNS i p hp hm fun q hq => hpre q hq
  · intro v hv
    unfold detect_chatbot_type
    rw [hv]

/-- Concrete instance of C10: a mixed-case Gemini URL is detected as the
`gemini` profile, whose pattern is the first to match. -/
theorem c10_witness : detect_chatbot_type "https://Gemini.Google.com/app" = "gemini" :=
  (c10_detect_site_kind "https://Gemini.Google.com/app").2.1 1 geminiProfile
    (by decide) (by decide) (by decide)

theorem gf_fst (Q c : String) (url : Option String) (st : LocatorState)
    (hc : c = "input" ∨ c = "send" ∨ c = "response") :
    (get_fallback_locators Q c url st).1 = (classList c st).erase Q := by
  rcases hc with h | h | h <;> subst h <;> rfl

theorem gf_snd (Q c : String) (url : Option String) (st : LocatorState)
    (hc : c = "input" ∨ c = "send" ∨ c = "response") :
    classList c (get_fallback_locators Q c url st).2 = (classList c st).erase Q := by
  rcases hc with h | h | h <;> subst h <;> rfl

theorem mem_classList_gf {x : String} (c Q t : String) (url : Option String)
    (st : LocatorState) :
    x ∈ classList c (get_fallback_locators Q t url st).2 → x ∈ classList c st := by
  unfold get_fallback_locators classList
  split_ifs <;> simp_all <;> intro hx <;>
    first
      | exact hx
      | exact List.mem_of_mem_erase hx

theorem applyCalls_not_mem {P c : String} (calls : List (String × String × Option String))
    (st : LocatorState) (h : P ∉ classList c st) :
    P ∉ classList c (applyCalls calls st) := by
  induction calls generalizing st with
  | nil => exact h
  | cons call rest ih =>
    exact ih _ fun hx => h (mem_classList_gf c call.1 call.2.1 call.2.2 st hx)

/-- C9: for every element class, primary selector and state of the shared
lists, the fallback list returned by `get_fallback_locators` equals the
universal selector list for that class with the (first occurrence of the)
primary erased; it is a sublist of the universal list (relative order
preserved), it never contains the primary (the lists hold no duplicates), and
no selector other than the primary is dropped. -/
theorem c9_fallback_excludes_primary (P c : String) (url : Option String)
    (st : LocatorState)
    (hc : c = "input" ∨ c = "send" ∨ c = "response")
    (hnd : (classList c st).Nodup) :
    (get_fallback_locators P c url st).1 = (classList c st).erase P
    ∧ ((get_fallback_locators P c url st).1).Sublist (classList c st)
    ∧ P ∉ (get_fallback_locators P c url st).1
    ∧ (∀ x : String, x ≠ P →
        (x ∈ (get_fallback_locators P c url st).1 ↔ x ∈ classList c st)) := by
  have h1 := gf_fst P c url st hc
  refine ⟨h1, ?_, ?_, ?_⟩
  · rw [h1]; exact List.erase_sublist P (classList c st)
  · rw [h1]; exact hnd.not_mem_erase
  · intro x hx
    rw [h1]
    exact List.mem_erase_of_ne hx

/-- Concrete instance of C9: erasing the default input primary from the
universal input list leaves a fallback list that no longer contains it. -/
theorem c9_witness :
    "textarea[placeholder*=\"Ask\"]" ∉
      (get_fallback_locators "textarea[placeholder*=\"Ask\"]" "input" none
        initLocatorState).1 :=
  (c9_fallback_excludes_primary "textarea[placeholder*=\"Ask\"]" "input" none
    initLocatorState (Or.inl rfl) (by decide)).2.2.1

/-- C4: `get_fallback_locators` returns the shared class-level list itself
(after the call, the stored list for the class is the returned list) with the
primary erased in place; consequently the primary is absent from the shared
list, and every later fallback-list computation for the same class — after any
sequence of further calls, for any URL and any primary — returns a list that
does not contain it. -/
theorem c4_fallback_mutation_permanent (st : LocatorState) (P c : String)
    (url : Option String)
    (hc : c = "input" ∨ c = "send" ∨ c = "response")
    (hnd : (classList c st).Nodup) :
    (get_fallback_locators P c url st).1
        = classList c (get_fallback_locators P c url st).2
    ∧ P ∉ classList c (get_fallback_locators P c url st).2
    ∧ ∀ (calls : List (String × String × Option String)) (Q : String)
        (url2 : Option String),
        P ∉ (get_fallback_locators Q c url2
              (applyCalls calls (get_fallback_locators P c url st).2)).1 := by
  have h1 := gf_fst P c url st hc
  have h2 := gf_snd P c url st hc
  have habs : P ∉ classList c (get_fallback_locators P c url st).2 := by
    rw [h2]; exact hnd.not_mem_erase
  refine ⟨by rw [h1, h2], habs, ?_⟩
  intro calls Q url2
  have h3 := applyCalls_not_mem calls _ habs
  rw [gf_fst Q c url2 _ hc]
  intro hx
  exact h3 (List.mem_of_mem_erase hx)

/-- Concrete instance of C4: after one call erasing `"textarea"` for the input
class and a further unrelated call, a later input fallback list still misses
`"textarea"`. -/
theorem c4_witness :
    "textarea" ∉
      (get_fallback_locators "[role=\"textbox\"]" "input" none
        (applyCalls [("input", "input", none)]
          (get_fallback_locators "textarea" "input" none initLocatorState).2)).1 :=
  (c4_fallback_mutation_permanent initLocatorState "textarea" "input" none
    (Or.inl rfl) (by decide)).2.2 [("input", "input", none)] "[role=\"textbox\"]" none

theorem findEmptyRowAux_filled :
    ∀ (qas : List (String × String)), (∀ p ∈ qas, ¬strTrim p.1 = "") →
      ∀ (n i : Nat),
        findEmptyRowAux (qas.map rowOf ++ List.replicate n blankRow) i
          = if n = 0 then none else some (i + qas.length) := by
  have hblank : rowEmptyQ blankRow = true := by decide
  intro qas
  induction qas with
  | nil =>
    intro _ n i
    cases n with
    | zero => rfl
    | succ m =>
      simp [findEmptyRowAux, List.replicate_succ, hblank]
  | cons p ps ih =>
    intro h n i
    have hp : ¬strTrim p.1 = "" := h p (List.mem_cons_self p ps)
    have hq : rowEmptyQ (rowOf p) = false := by
      simp [rowEmptyQ, rowOf, hp]
    simp only [List.map_cons, List.cons_append, findEmptyRowAux, hq,
      Bool.false_eq_true, if_false, List.append_eq]
    rw [ih (fun q hq2 => h q (List.mem_cons_of_mem p hq2)) n (i + 1)]
    cases n with
    | zero => rfl
    | succ m =>
      simp only [if_neg (Nat.succ_ne_zero m), List.length_cons]
      congr 1
      omega

theorem setRowAt_filled :
    ∀ (qas : List (String × String)) (n : Nat) (q a : String),
      setRowAt (qas.map rowOf ++ blankRow :: List.replicate n blankRow) qas.length q a
        = qas.map rowOf ++ rowOf (q, a) :: List.replicate n blankRow := by
  intro qas
  induction qas with
  | nil => intro n q a; rfl
  | cons p ps ih =>
    intro n q a
    simp only [List.map_cons, List.cons_append, List.length_cons, setRowAt,
      List.append_eq]
    rw [ih n q a]

/-- C5: after `save_to_csv q a reset_file=True` the store is exactly the
header plus 20 data rows (21 rows) with the first data row `(q, a, "")` and the
rest blank; from a store holding `n < 20` filled rows (nonempty questions) a
further save fills the next row in order; with all 20 data rows filled the save
returns failure and leaves the store unchanged. -/
theorem c5_scoreboard_persist (q a : String) (s : List (List String))
    (qas : List (String × String)) (hne : ∀ p ∈ qas, ¬strTrim p.1 = "") :
    save_to_csv q a true s = (true, storeAfter [(q, a)])
    ∧ (qas.length ≤ 20 → (storeAfter qas).length = 21)
    ∧ (qas.length < 20 →
        save_to_csv q a false (storeAfter qas) = (true, storeAfter (qas ++ [(q, a)])))
    ∧ (qas.length = 20 →
        save_to_csv q a false (storeAfter qas) = (false, storeAfter qas)) := by
  have hfind : ∀ n : Nat,
      findEmptyRow (storeAfter qas)
        = if 20 - qas.length = 0 then none else some (1 + qas.length) := by
    intro _
    show findEmptyRowAux (qas.map rowOf ++ List.replicate (20 - qas.length) blankRow) 1
        = if 20 - qas.length = 0 then none else some (1 + qas.length)
    exact findEmptyRowAux_filled qas hne (20 - qas.length) 1
  refine ⟨rfl, ?_, ?_, ?_⟩
  · intro h
    simp only [storeAfter, List.length_cons, List.length_append, List.length_map,
      List.length_replicate]
    omega
  · intro h
    have h20 : 20 - qas.length = (19 - qas.length) + 1 := by omega
    simp only [save_to_csv, Bool.false_eq_true, if_false]
    rw [hfind 0, if_neg (by omega : ¬(20 - qas.length = 0))]
    have hset :
        setRowAt (storeAfter qas) (1 + qas.length) q a = storeAfter (qas ++ [(q, a)]) := by
      rw [Nat.add_comm 1 qas.length]
      show headerRow ::
          setRowAt (qas.map rowOf ++ List.replicate (20 - qas.length) blankRow)
            qas.length q a
        = storeAfter (qas ++ [(q, a)])
      rw [h20, List.replicate_succ, setRowAt_filled qas (19 - qas.length) q a]
      simp only [storeAfter, List.map_append, List.length_append, List.length_map,
        List.map_cons, List.map_nil, List.length_cons, List.length_nil]
      rw [List.append_assoc, List.singleton_append]
      have : 20 - (qas.length + (0 + 1)) = 19 - qas.length := by omega
      rw [this]
    show (true, setRowAt (storeAfter qas) (1 + qas.length) q a)
        = (true, storeAfter (qas ++ [(q, a)]))
    rw [hset]
  · intro h
    simp only [save_to_csv, Bool.false_eq_true, if_false]
    rw [hfind 0, if_pos (by omega : 20 - qas.length = 0)]

/-- Concrete instance of C5: with one row already filled, a further save fills
the second data row. -/
theorem c5_witness :
    save_to_csv "q2" "a2" false (storeAfter [("q1", "a1")])
      = (true, storeAfter [("q1", "a1"), ("q2", "a2")]) :=
  (c5_scoreboard_persist "q2" "a2" [] [("q1", "a1")] (by decide)).2.2.1 (by decide)

/-- C2 (failing input): the response classifier of
`enter_text_and_get_response` selects as the answer a candidate whose trimmed
text is exactly the submitted question.  The question is 56 characters long and
the sole candidate is the question padded with one space on each side, so the
shadowed self-echo comparison (candidate against its own raw text) passes and
the echo is returned as the captured response. -/
theorem c2_self_echo_evaluation :
    strTrim echoElem.text = qEcho
    ∧ 30 ≤ qEcho.length
    ∧ (capture_response envEcho qEcho initLocatorState).1 = qEcho := by
  refine ⟨by decide, by decide, by decide⟩

theorem firstVisible_visible {l : List Elem} {e : Elem} (h : firstVisible l = some e) :
    e.visible = true :=
  List.find?_some h

theorem tryFallbacks_visible (page : String → List Elem) :
    ∀ (sels : List String) {e : Elem}, tryFallbacks page sels = some e →
      e.visible = true := by
  intro sels
  induction sels with
  | nil => intro e h; simp [tryFallbacks] at h
  | cons s rest ih =>
    intro e h
    simp only [tryFallbacks] at h
    cases hf : firstVisible (page s) with
    | some e2 =>
      rw [hf] at h
      cases h
      exact firstVisible_visible hf
    | none =>
      rw [hf] at h
      exact ih h

theorem firstVisible_first (l1 : List Elem) (e : Elem) (l2 : List Elem)
    (h1 : ∀ x ∈ l1, x.visible = false) (he : e.visible = true) :
    firstVisible (l1 ++ e :: l2) = some e := by
  induction l1 with
  | nil =>
    show List.find? (fun el => el.visible) (e :: l2) = some e
    exact List.find?_cons_of_pos _ he
  | cons x xs ih =>
    have hx : x.visible = false := h1 x (List.mem_cons_self x xs)
    rw [List.cons_append]
    show List.find? (fun el => el.visible) (x :: (xs ++ e :: l2)) = some e
    rw [List.find?_cons_of_neg _ (by simp [hx])]
    exact ih fun y hy => h1 y (List.mem_cons_of_mem x hy)

theorem tryFallbacks_first (page : String → List Elem) :
    ∀ (pre : List String) (sel : String) (rest : List String) (e : Elem),
      (∀ s ∈ pre, firstVisible (page s) = none) →
      firstVisible (page sel) = some e →
      tryFallbacks page (pre ++ sel :: rest) = some e := by
  intro pre
  induction pre with
  | nil =>
    intro sel rest e _ hs
    simp [tryFallbacks, hs]
  | cons s0 pre2 ih =>
    intro sel rest e hpre hs
    have h0 : firstVisible (page s0) = none := hpre s0 (List.mem_cons_self s0 pre2)
    rw [List.cons_append]
    show tryFallbacks page (s0 :: (pre2 ++ sel :: rest)) = some e
    simp only [tryFallbacks, h0]
    exact ih sel rest e (fun s hsm => hpre s (List.mem_cons_of_mem s0 hsm)) hs

/-- C8 (amended): the resolver never consults the enabled state — any returned
element is merely visible (see the counterexample for a visible-but-disabled
input element being returned) — and in every phase the element returned is the
first visible match: a query's first visible element is the first match that is
visible even behind invisible matches (conjunct 1); a visible primary match
short-circuits resolution with the primary query's first visible element
(conjunct 2); otherwise the first fallback selector with a visible match
supplies its first visible element, every earlier fallback selector having none
(conjunct 3); and when the primary and every fallback fail, the result is the
first visible element of the combined generic query (conjunct 4). -/
theorem c8_first_visible_amended (page : String → List Elem) (locator_type : String)
    (primary_locator : Option String) (url : Option String) (st : LocatorState) :
    (∀ (l1 l2 : List Elem) (e : Elem), (∀ x ∈ l1, x.visible = false) →
        e.visible = true → firstVisible (l1 ++ e :: l2) = some e)
    ∧ (∀ e : Elem,
        (find_element_with_healing page locator_type primary_locator url st).1 = some e →
        e.visible = true)
    ∧ (∀ e : Elem,
        firstVisible (page (primaryFor locator_type primary_locator url)) = some e →
        (find_element_with_healing page locator_type primary_locator url st).1 = some e)
    ∧ (firstVisible (page (primaryFor locator_type primary_locator url)) = none →
        ∀ (pre : List String) (sel : String) (rest : List String) (e : Elem),
          (get_fallback_locators (primaryFor locator_type primary_locator url)
              locator_type url st).1 = pre ++ sel :: rest →
          (∀ s ∈ pre, firstVisible (page s) = none) →
          firstVisible (page sel) = some e →
          (find_element_with_healing page locator_type primary_locator url st).1 = some e)
    ∧ (firstVisible (page (primaryFor locator_type primary_locator url)) = none →
        tryFallbacks page (get_fallback_locators
            (primaryFor locator_type primary_locator url) locator_type url st).1
          = none →
        (find_element_with_healing page locator_type primary_locator url st).1
          = firstVisible (page genericCombined)) := by
  refine ⟨fun l1 l2 e h1 he => firstVisible_first l1 e l2 h1 he, ?_, ?_, ?_, ?_⟩
  · intro e h
    simp only [find_element_with_healing] at h
    cases hf : firstVisible (page (primaryFor locator_type primary_locator url)) with
    | some e1 =>
      rw [hf] at h
      simp only [Option.some.injEq] at h
      subst h
      exact firstVisible_visible hf
    | none =>
      rw [hf] at h
      cases ht : tryFallbacks page
          (get_fallback_locators (primaryFor locator_type primary_locator url)
            locator_type url st).1 with
      | some e2 =>
        rw [ht] at h
        simp only [Option.some.injEq] at h
        subst h
        exact tryFallbacks_visible page _ ht
      | none =>
        rw [ht] at h
        exact firstVisible_visible h
  · intro e h
    simp only [find_element_with_healing, h]
  · intro hf pre sel rest e hdec hpre hs
    have ht : tryFallbacks page
        (get_fallback_locators (primaryFor locator_type primary_locator url)
          locator_type url st).1 = some e := by
      rw [hdec]
      exact tryFallbacks_first page pre sel rest e hpre hs
    simp only [find_element_with_healing, hf, ht]
  · intro hf ht
    simp only [find_element_with_healing, hf, ht]

/-- Concrete instances of C8 (amended), one per phase: the primary phase
returns the visible primary match; the fallback phase passes over an
unproductive earlier fallback selector and an invisible match before returning
the first visible one; the generic phase returns the first visible element of
the combined generic query; and a query's first visible element is selected
even behind an invisible match. -/
theorem c8_witness :
    (find_element_with_healing pgVisible "input" none none initLocatorState).1
      = some visBox
    ∧ (find_element_with_healing pgFallback "input" none none initLocatorState).1
      = some visBox
    ∧ (find_element_with_healing pgGeneric "input" none none initLocatorState).1
      = some visBox
    ∧ firstVisible [hiddenBox, visBox] = some visBox := by
  refine ⟨?_, ?_, ?_, ?_⟩
  · exact (c8_first_visible_amended pgVisible "input" none none
      initLocatorState).2.2.1 visBox (by decide)
  · exact (c8_first_visible_amended pgFallback "input" none none
      initLocatorState).2.2.2.1 (by decide)
      ["textarea[placeholder*=\"message\"]"]
      "textarea[placeholder*=\"Message\"]"
      (List.drop 2 (UNIVERSAL_INPUT_SELECTORS.erase "textarea[placeholder*=\"Ask\"]"))
      visBox (by decide) (by decide) (by decide)
  · have h := (c8_first_visible_amended pgGeneric "input" none none
      initLocatorState).2.2.2.2 (by decide) (by decide)
    rw [h]
    decide
  · exact (c8_first_visible_amended pgGeneric "input" none none
      initLocatorState).1 [hiddenBox] [] visBox (by decide) (by decide)

/-- C8 counterexample: for the input class the resolver returns a
visible-but-disabled element — `is_enabled` is never checked, contradicting the
claim that a visible-but-disabled element is never returned for interactive
classes. -/
theorem c8_counterexample :
    (find_element_with_healing pgDisabled "input" none none initLocatorState).1
      = some visDisabled
    ∧ visDisabled.enabled = false := by
  refine ⟨by decide, rfl⟩

theorem gf_idempotent (p t : String) (url url2 : Option String) (st : LocatorState)
    (h1 : st.input_fields.Nodup) (h2 : st.send_buttons.Nodup)
    (h3 : st.responses.Nodup) :
    get_fallback_locators p t url2 ((get_fallback_locators p t url st).2)
      = get_fallback_locators p t url st := by
  have e1 : (st.input_fields.erase p).erase p = st.input_fields.erase p :=
    List.erase_of_not_mem h1.not_mem_erase
  have e2 : (st.send_buttons.erase p).erase p = st.send_buttons.erase p :=
    List.erase_of_not_mem h2.not_mem_erase
  have e3 : (st.responses.erase p).erase p = st.responses.erase p :=
    List.erase_of_not_mem h3.not_mem_erase
  unfold get_fallback_locators
  split_ifs <;> simp_all

/-- C3 (amended): resolving the same element class twice in immediate
succession against an unchanged DOM yields the same result both times, and the
second call leaves the selector-list state where the first call put it — but
the first call itself may mutate that shared state (see the counterexample), so
only the results, not the state, are unchanged. -/
theorem c3_resolve_idempotent_amended (page : String → List Elem)
    (locator_type : String) (primary_locator : Option String) (url : Option String)
    (st : LocatorState)
    (h1 : st.input_fields.Nodup) (h2 : st.send_buttons.Nodup)
    (h3 : st.responses.Nodup) :
    (find_element_with_healing page locator_type primary_locator url
        ((find_element_with_healing page locator_type primary_locator url st).2)).1
      = (find_element_with_healing page locator_type primary_locator url st).1
    ∧ (find_element_with_healing page locator_type primary_locator url
        ((find_element_with_healing page locator_type primary_locator url st).2)).2
      = (find_element_with_healing page locator_type primary_locator url st).2 := by
  have hidem := gf_idempotent (primaryFor locator_type primary_locator url)
    locator_type url url st h1 h2 h3
  simp only [find_element_with_healing]
  cases hf : firstVisible (page (primaryFor locator_type primary_locator url)) with
  | some e => simp [hf]
  | none =>
    simp only [hf]
    cases ht : tryFallbacks page
        (get_fallback_locators (primaryFor locator_type primary_locator url)
          locator_type url st).1 with
    | some e =>
      simp only [ht]
      rw [hidem]
      simp [ht]
    | none =>
      simp only [ht]
      rw [hidem]
      simp [ht]

/-- Concrete instance of C3 (amended): on an empty page, back-to-back input
resolutions return the same (absent) result. -/
theorem c3_witness :
    (find_element_with_healing (fun _ => []) "input" none none
        ((find_element_with_healing (fun _ => []) "input" none none
          initLocatorState).2)).1
      = (find_element_with_healing (fun _ => []) "input" none none
          initLocatorState).1 :=
  (c3_resolve_idempotent_amended (fun _ => []) "input" none none initLocatorState
    (by decide) (by decide) (by decide)).1

/-- C3 counterexample: the claim also asserts that a resolve call mutates no
program state, but already the first call on an empty page removes the primary
selector from the shared universal input list in place, changing the
class-level state. -/
theorem c3_counterexample :
    (find_element_with_healing (fun _ => []) "input" none none initLocatorState).2
      ≠ initLocatorState := by decide

/-- C1 (amended): only errors raised inside the capture phase are caught by
`enter_text_and_get_response` and turned into an `"Error: ..."` answer string;
a failed input resolution (and likewise any typing or submission error)
re-raises out of the function, and `main`'s loop then aborts on the spot — the
remaining questions are never processed, so the batch does not produce one
result per input question. -/
theorem c1_per_question_error_handling :
    (∀ (env : ExchangeEnv) (q : String) (lst : LocatorState),
        (find_element_with_healing env.page "input" none env.url lst).1 = none →
        (enter_text_and_get_response env q lst).1
          = ExchangeResult.raised
              "Could not find any visible input field with self-healing")
    ∧ (∀ (env : ExchangeEnv) (q : String) (lst : LocatorState) (m : String),
        env.typeRaises = none → env.sendRaises = none → env.captureRaises = some m →
        (find_element_with_healing env.page "input" none env.url lst).1.isSome = true →
        (enter_text_and_get_response env q lst).1
          = ExchangeResult.returned ("Error: " ++ m))
    ∧ (∀ (q : String) (env : ExchangeEnv) (rest : List (String × ExchangeEnv))
        (first : Bool) (lst : LocatorState) (rows : List (List String)) (m : String),
        (enter_text_and_get_response env q lst).1 = ExchangeResult.raised m →
        runMain ((q, env) :: rest) first lst rows
          = ([Event.processed q], rows, some m)) := by
  refine ⟨?_, ?_, ?_⟩
  · intro env q lst h
    simp only [enter_text_and_get_response, h]
  · intro env q lst m ht hs hc hi
    obtain ⟨e, he⟩ := Option.isSome_iff_exists.mp hi
    simp only [enter_text_and_get_response, he, ht, hs, hc]
  · intro q env rest first lst rows m h
    simp only [runMain, h]

/-- Concrete instance of C1 (amended): with no input field on the page, the
exchange raises instead of returning a result string. -/
theorem c1_witness :
    (enter_text_and_get_response envNoInput "q1" initLocatorState).1
      = ExchangeResult.raised
          "Could not find any visible input field with self-healing" :=
  c1_per_question_error_handling.1 envNoInput "q1" initLocatorState (by decide)

/-- C1 counterexample: a two-question batch whose first question hits a missing
input field aborts the whole run (the exception reaches `main`'s outer
handler): no row is ever written and only one of the two questions is even
processed — not one result per input question. -/
theorem c1_counterexample :
    (runMain [("q1", envNoInput), ("q2", envGood)] true initLocatorState
        (storeAfter [])).2.2
      = some "Could not find any visible input field with self-healing"
    ∧ ((runMain [("q1", envNoInput), ("q2", envGood)] true initLocatorState
        (storeAfter [])).1.countP isWrote) = 0
    ∧ (runMain [("q1", envNoInput), ("q2", envGood)] true initLocatorState
        (storeAfter [])).1.length = 1 := by
  refine ⟨by decide, by decide, by decide⟩

/-- C7 (amended): when classification yields no usable text the exchange
returns the sentinel `"No response captured"` (not `"no answer captured"`) and
the outcome is soft — the loop continues with the next question — but the
sentinel is never persisted: `main`'s guard skips the save, leaving the store
untouched by that question. -/
theorem c7_no_response_sentinel_amended :
    (capture_response envNoCapture "any question at all" initLocatorState).1
        = "No response captured"
    ∧ (∀ (q : String) (env : ExchangeEnv) (rest : List (String × ExchangeEnv))
        (first : Bool) (lst : LocatorState) (rows : List (List String)),
        (enter_text_and_get_response env q lst).1
            = ExchangeResult.returned "No response captured" →
        runMain ((q, env) :: rest) first lst rows
          = (Event.processed q :: Event.skipped q ::
              (runMain rest false (enter_text_and_get_response env q lst).2 rows).1,
             (runMain rest false (enter_text_and_get_response env q lst).2 rows).2)) := by
  refine ⟨by decide, ?_⟩
  intro q env rest first lst rows h
  simp only [runMain, h]
  rw [show validResponse "No response captured" = false from by decide]
  simp

/-- Concrete instance of C7 (amended): a question with no capturable response
is processed and skipped; the run ends normally with the store unchanged. -/
theorem c7_witness :
    runMain [("q1", envNoCapture)] true initLocatorState (storeAfter [])
      = ([Event.processed "q1", Event.skipped "q1"], storeAfter [], none) := by
  have h := c7_no_response_sentinel_amended.2 "q1" envNoCapture [] true
    initLocatorState (storeAfter []) (by decide)
  simpa using h

/-- C7 counterexample: the claim says the sentinel is persisted to the
scoreboard like any other answer; in fact the exchange returns the sentinel
(`"No response captured"`, not the claimed `"no answer captured"`) and `main`
skips the save — no row is written and the store is unchanged. -/
theorem c7_counterexample :
    (enter_text_and_get_response envNoCapture "q1" initLocatorState).1
        = ExchangeResult.returned "No response captured"
    ∧ ((runMain [("q1", envNoCapture)] true initLocatorState
        (storeAfter [])).1.countP isWrote) = 0
    ∧ (runMain [("q1", envNoCapture)] true initLocatorState (storeAfter [])).2.1
        = storeAfter [] := by
  refine ⟨by decide, by decide, by decide⟩

theorem no_reset_decomp {tr : List Event} (h : tr.countP isReset = 0)
    {pre post : List Event} (hd : tr = pre ++ Event.resetStore :: post) : False := by
  subst hd
  rw [List.countP_append, List.countP_cons] at h
  simp [isReset] at h

theorem runMain_rest_no_reset :
    ∀ (inputs : List (String × ExchangeEnv)) (lst : LocatorState)
      (rows : List (List String)),
      ((runMain inputs false lst rows).1.countP isReset) = 0 := by
  intro inputs
  induction inputs with
  | nil => intro lst rows; rfl
  | cons qe rest ih =>
    intro lst rows
    obtain ⟨q, env⟩ := qe
    simp only [runMain]
    cases hr : (enter_text_and_get_response env q lst).1 with
    | raised m => simp [List.countP_cons, isReset]
    | returned resp =>
      cases hv : validResponse resp with
      | false => simp [hv, List.countP_cons, isReset, ih]
      | true =>
        simp only [hv, if_true, save_events]
        cases hs : (save_to_csv q resp false rows).1 with
        | false =>
          simp [hs, List.countP_cons, List.countP_append, isReset, ih]
        | true =>
          simp [hs, List.countP_cons, List.countP_append, isReset, ih]

/-- C6 (amended): per run, the scoreboard reset happens at most once — exactly
once when (and only when) the first question's exchange returns a response that
passes the save guard, and zero times otherwise; the first event of any run is
a question exchange (so the reset never precedes the first question's
processing, though it does precede every row write). -/
theorem c6_reset_once_amended (inputs : List (String × ExchangeEnv))
    (lst : LocatorState) (rows : List (List String)) :
    ((runMain inputs true lst rows).1.countP isReset
        = if firstValid inputs lst then 1 else 0)
    ∧ (∀ (e : Event) (tr : List Event),
        (runMain inputs true lst rows).1 = e :: tr → isProc e = true)
    ∧ (∀ (pre post : List Event),
        (runMain inputs true lst rows).1 = pre ++ Event.resetStore :: post →
        ∀ q2 a2 : String, Event.wroteRow q2 a2 ∉ pre) := by
  cases inputs with
  | nil =>
    refine ⟨rfl, ?_, ?_⟩
    · intro e tr h
      exact absurd h (by simp [runMain])
    · intro pre post h q2 a2
      exact absurd h (by cases pre <;> simp [runMain])
  | cons qe rest =>
    obtain ⟨q, env⟩ := qe
    simp only [runMain, firstValid]
    obtain ⟨res, lst2, hrp⟩ :
        ∃ res lst2, enter_text_and_get_response env q lst = (res, lst2) := ⟨_, _, rfl⟩
    simp only [hrp]
    cases res with
    | raised m =>
      refine ⟨by simp [List.countP_cons, isReset], ?_, ?_⟩
      · intro e tr h
        simp only [List.cons.injEq] at h
        rw [← h.1]
        rfl
      · intro pre post h q2 a2
        cases pre with
        | nil => simp at h
        | cons b pre' =>
          simp only [List.cons_append, List.cons.injEq] at h
          exact absurd h.2 (by simp)
    | returned resp =>
      cases hv : validResponse resp with
      | false =>
        simp only [hv, Bool.false_eq_true, if_false]
        have hc : ((runMain rest false lst2 rows).1).countP isReset = 0 :=
          runMain_rest_no_reset rest lst2 rows
        refine ⟨by simp [List.countP_cons, isReset, hc], ?_, ?_⟩
        · intro e tr h
          simp only [List.cons.injEq] at h
          rw [← h.1]
          rfl
        · intro pre post h q2 a2
          exfalso
          refine no_reset_decomp ?_ h
          simp [List.countP_cons, isReset, hc]
      | true =>
        simp only [hv, if_true, save_events]
        have hc : ((runMain rest false lst2
            ((save_to_csv q resp true rows).2)).1).countP isReset = 0 :=
          runMain_rest_no_reset rest lst2 _
        have hifc : ∀ b : Bool,
            ((if b = true then [Event.wroteRow q resp] else [Event.saveFailed q])
              ++ (runMain rest false lst2
                  ((save_to_csv q resp true rows).2)).1).countP isReset = 0 := by
          intro b
          cases b <;> simp [List.countP_cons, List.countP_append, isReset, hc]
        refine ⟨?_, ?_, ?_⟩
        · have h2 := hifc (save_to_csv q resp true rows).1
          rw [List.countP_append] at h2
          have hr1 : isReset Event.resetStore = true := rfl
          have hp1 : isReset (Event.processed q) = false := rfl
          simp only [List.cons_append, List.nil_append, List.singleton_append,
            List.countP_cons, List.countP_append, hr1, hp1, if_true, if_false,
            Bool.false_eq_true]
          omega
        · intro e tr h
          simp only [List.cons_append, List.singleton_append,
            List.cons.injEq] at h
          rw [← h.1]
          rfl
        · intro pre post h q2 a2
          simp only [List.cons_append, List.singleton_append] at h
          cases pre with
          | nil => simp at h
          | cons b pre' =>
            rw [List.cons_append] at h
            injection h with hb h
            cases pre' with
            | nil => simp [← hb]
            | cons b2 pre'' =>
              rw [List.cons_append] at h
              injection h with hb2 h
              exfalso
              exact no_reset_decomp (hifc (save_to_csv q resp true rows).1) h

/-- Concrete instance of C6 (amended): when the first question's exchange
produces a valid response, the run performs exactly one reset, and the trace
slice before that reset contains no row write. -/
theorem c6_witness :
    ((runMain [("q2", envGood)] true initLocatorState (storeAfter [])).1.countP
      isReset) = 1
    ∧ Event.wroteRow "x" "y" ∉ [Event.processed "q2"] := by
  constructor
  · have h := (c6_reset_once_amended [("q2", envGood)] initLocatorState
      (storeAfter [])).1
    rw [show firstValid [("q2", envGood)] initLocatorState = true from by decide] at h
    simpa using h
  · exact (c6_reset_once_amended [("q2", envGood)] initLocatorState
      (storeAfter [])).2.2 [Event.processed "q2"]
      [Event.wroteRow "q2"
        "the answer to that question is paris, which has been the capital for centuries"]
      (by decide) "x" "y"

/-- C6 counterexample: in a run whose first question yields no captured
response (so its save is skipped), the reset is never invoked — zero resets,
not exactly one — and later answers are appended to the pre-existing store. -/
theorem c6_counterexample :
    ((runMain [("q1", envNoCapture), ("q2", envGood)] true initLocatorState
        (storeAfter [])).1.countP isReset) = 0 := by decide
